import Mathlib

/-!
Shallow embedding of the price-suggestion engine of `src/pricing.py`
(repository `relatorio_equipamentos`).

Data model:
* a validated row (`Row`) carries the columns `Loja`, `Equipamento`,
  `Preço sugerido`, `Preço real`; optional decimal prices are `Option ℚ`
  (`none` is pandas `NaN`);
* a historical entry (`RegistroHist`) carries `Loja | Equipamento |
  PrecoReal | Fonte | ts` (pricing.py line 39);
* the durable store (`StoreState`) is the pair of files
  `precos_historico.parquet` / `precos_historico.csv`, each either absent
  or holding a list of entries, with a readability flag (missing decoder /
  corruption) and a writability flag for the parquet codec.  The byte-level
  (de)serialisation performed by pandas is modelled as lossless on the
  entry list, per the schema contract of the store.
-/

namespace Pricing

/-- One validated input row: columns `Loja`, `Equipamento`,
`Preço sugerido`, `Preço real`.  Absent prices (`NaN`) are `none`. -/
structure Row where
  loja : String
  equipamento : String
  sugerido : Option ℚ
  real : Option ℚ
deriving DecidableEq, Repr, Inhabited

/-- One entry of the price history: columns
`Loja | Equipamento | PrecoReal | Fonte | ts` (pricing.py line 39). -/
structure RegistroHist where
  loja : String
  equipamento : String
  precoReal : Option ℚ
  fonte : String
  ts : String
deriving DecidableEq, Repr, Inhabited

/-- One persisted file of the store: `conteudo = none` means the file does
not exist; `legivel = false` means any read attempt raises (corruption or
missing decoder). -/
structure ArquivoHist where
  conteudo : Option (List RegistroHist)
  legivel : Bool
deriving DecidableEq, Repr

/-- The durable state of the Historical Store: the primary (parquet) file,
the secondary (csv) file, and whether `to_parquet` succeeds
(`parquetGravavel = false` models a raised exception, e.g. missing
pyarrow). -/
structure StoreState where
  parquet : ArquivoHist
  csv : ArquivoHist
  parquetGravavel : Bool
deriving DecidableEq, Repr

/-- Outcome of `pd.read_parquet`/`pd.read_csv` on one file: `some` entries
when the file exists and the read succeeds, `none` when the file is absent
or the read raises. -/
def lerArquivo (f : ArquivoHist) : Option (List RegistroHist) :=
  match f.conteudo with
  | some d => if f.legivel then some d else none
  | none => none

/-- Model of `carregar_historico` (pricing.py lines 34-52): try the parquet file
first (`os.path.exists` + `read_parquet` under `try/except`), fall back to
the csv file, and return the empty entry set when neither is readable. -/
def carregar_historico (st : StoreState) : List RegistroHist :=
  match lerArquivo st.parquet with
  | some d => d
  | none =>
    match lerArquivo st.csv with
    | some d => d
    | none => []

/-- The retention trim of `salvar_historico` (pricing.py lines 64-66):
`df_hist.iloc[-200_000:]` keeps the last 200 000 entries when the input
exceeds the cap. -/
def trimRetencao (l : List RegistroHist) : List RegistroHist :=
  if 200000 < l.length then l.drop (l.length - 200000) else l

/-- Model of `salvar_historico` (pricing.py lines 55-71): apply the retention trim,
then write the parquet file; if `to_parquet` raises, write the csv file
instead.  A freshly written file exists and is readable. -/
def salvar_historico (df : List RegistroHist) (st : StoreState) : StoreState :=
  let d := trimRetencao df
  if st.parquetGravavel then { st with parquet := ⟨some d, true⟩ }
  else { st with csv := ⟨some d, true⟩ }

/-- The row filter of `atualizar_historico` (pricing.py line 84):
`df["Preço real"].notna() & (pd.to_numeric(df["Preço real"]) > 0)`. -/
def qualifica (r : Row) : Bool :=
  match r.real with
  | some v => decide (0 < v)
  | none => false

/-- Projection of one qualifying row to a history entry
(pricing.py lines 85-93): columns `Loja`, `Equipamento`, `Preço real` are
taken verbatim (no trimming), `Fonte = "input_atual"`, and the batch-wide
timestamp `now` is attached. -/
def paraRegistro (now : String) (r : Row) : RegistroHist :=
  ⟨r.loja, r.equipamento, r.real, "input_atual", now⟩

/-- Model of `atualizar_historico` (pricing.py lines 74-98): if the batch is empty
or no row qualifies, return 0 without touching the store; otherwise load
the store, append the qualifying rows after the existing entries, save,
and return the number of rows appended. -/
def atualizar_historico (rows : List Row) (st : StoreState) (now : String) :
    ℕ × StoreState :=
  if rows.isEmpty then (0, st)
  else
    let dfAdd := rows.filter qualifica
    if dfAdd.isEmpty then (0, st)
    else
      let novos := dfAdd.map (paraRegistro now)
      let hist := carregar_historico st
      (novos.length, salvar_historico (hist ++ novos) st)

/-- The statistical median used by every pandas `.median()` call in
`sugerir_precos`: sort ascending, take the middle element (odd count) or
the midpoint average of the two middle elements (even count); empty input
(`NaN` result in pandas) is `none`.  `NaN` inputs are dropped by the
caller before this function is reached (pandas `skipna`). -/
def mediana (l : List ℚ) : Option ℚ :=
  let s := List.insertionSort (· ≤ ·) l
  if s.length = 0 then none
  else if s.length % 2 = 1 then some (s.getD (s.length / 2) 0)
  else some ((s.getD (s.length / 2 - 1) 0 + s.getD (s.length / 2) 0) / 2)

/-- Python `str.strip()`: remove leading and trailing whitespace.
(Defined structurally over the character list so that it evaluates;
behaviourally identical to `String.trim` on the identifiers involved.) -/
def strip (s : String) : String :=
  ⟨((s.data.dropWhile Char.isWhitespace).reverse.dropWhile Char.isWhitespace).reverse⟩

/-- The usability test applied at every tier of the cascade
(pricing.py lines 147, 156, 160, 164): the value is present and `> 0`. -/
def usable (v : Option ℚ) : Bool :=
  match v with
  | some x => decide (0 < x)
  | none => false

/-- The normalisation of pricing.py lines 120-124: `Loja` and
`Equipamento` are trimmed (`str.strip()`); the price columns are already
numeric in this model (`pd.to_numeric` is the identity on them). -/
def trimRow (r : Row) : Row :=
  { r with loja := strip r.loja, equipamento := strip r.equipamento }

/-- Tier-2 lookup table (pricing.py lines 129-137): the historical median
of `PrecoReal` grouped by the raw `(Loja, Equipamento)` of the history —
the history-side keys are NOT trimmed; `NaN` realized prices are skipped
(`skipna`); an absent or all-`NaN` group yields `none`
(`med_hist.get(chave, np.nan)`). -/
def medHist (hist : List RegistroHist) (l e : String) : Option ℚ :=
  mediana ((hist.filter fun h => h.loja == l && h.equipamento == e).filterMap
    fun h => h.precoReal)

/-- Tier-3 lookup table (pricing.py line 140): median of `Preço real` in
the current (trimmed) batch grouped by `Equipamento`. -/
def medAtualReal (dfT : List Row) (e : String) : Option ℚ :=
  mediana ((dfT.filter fun r => r.equipamento == e).filterMap fun r => r.real)

/-- Tier-4 lookup table (pricing.py line 141): median of `Preço sugerido`
in the current (trimmed) batch grouped by `Equipamento`. -/
def medAtualSug (dfT : List Row) (e : String) : Option ℚ :=
  mediana ((dfT.filter fun r => r.equipamento == e).filterMap fun r => r.sugerido)

/-- Cascade of `sugerir_precos` (pricing.py lines 103-166): per row, in order —
(1) the row's own `Preço sugerido` if present and `> 0`; (2) the
historical median for the (trimmed) `(Loja, Equipamento)` key; (3) the
batch median of `Preço real` per `Equipamento`; (4) the batch median of
`Preço sugerido` per `Equipamento`; (5) `NaN`.  Steps 3 and 4 replace the
running value whenever it is absent or `≤ 0`; the final value is kept only
when present and `> 0`.  `linhaCascata` is the loop body of lines 145-164
for one (already trimmed) row `r` of the batch `dfT`. -/
def linhaCascata (dfT : List Row) (hist : List RegistroHist) (r : Row) : Option ℚ :=
  if usable r.sugerido then r.sugerido
  else
    let v2 := medHist hist r.loja r.equipamento
    let v3 := if usable v2 then v2 else medAtualReal dfT r.equipamento
    let v4 := if usable v3 then v3 else medAtualSug dfT r.equipamento
    if usable v4 then v4 else none

/-- The full estimator `sugerir_precos` (pricing.py lines 103-166):
normalise the batch, then run the cascade per row. -/
def sugerir_precos (rows : List Row) (hist : List RegistroHist) : List (Option ℚ) :=
  let dfT := rows.map trimRow
  dfT.map (linhaCascata dfT hist)

/-- First usable (present and `> 0`) value of a candidate list, `none` when
no candidate is usable: the specification's reading of the cascade. -/
def firstUsable : List (Option ℚ) → Option ℚ
  | [] => none
  | v :: rest => if usable v then v else firstUsable rest

/-- The four tier candidates of the cascade for one input row, in the
order the code consults them. -/
def tiersAt (rows : List Row) (hist : List RegistroHist) (r : Row) :
    List (Option ℚ) :=
  [r.sugerido,
   medHist hist (strip r.loja) (strip r.equipamento),
   medAtualReal (rows.map trimRow) (strip r.equipamento),
   medAtualSug (rows.map trimRow) (strip r.equipamento)]

/-- A validated row-set as `aplicar_preco_sugerido` sees it: the four core
columns in `rows`, plus any further numeric columns as an association list
(column name ↦ column values). -/
structure DF where
  rows : List Row
  extra : List (String × List (Option ℚ))
deriving DecidableEq, Repr

/-- The fill step of pricing.py lines 182-183 on one cell: the mask
`isna | (to_numeric ≤ 0)` selects exactly the non-usable cells, which
receive the estimator's value. -/
def fillCell (c s : Option ℚ) : Option ℚ :=
  if usable c then c else s

/-- Replace the value of the first association-list pair named `name`. -/
def updateExtra (name : String) (v : List (Option ℚ)) :
    List (String × List (Option ℚ)) → List (String × List (Option ℚ))
  | [] => []
  | (n, c) :: rest =>
    if n = name then (n, v) :: rest else (n, c) :: updateExtra name v rest

/-- Whether the row-set has a column of the given name (the four core
columns, or an extra column). -/
def temColuna (df : DF) (name : String) : Bool :=
  name == "Loja" || name == "Equipamento" || name == "Preço sugerido" ||
    name == "Preço real" || (df.extra.lookup name).isSome

/-- The numeric column of the given name, when present. -/
def getNum (df : DF) (name : String) : Option (List (Option ℚ)) :=
  if name = "Preço sugerido" then some (df.rows.map fun r => r.sugerido)
  else if name = "Preço real" then some (df.rows.map fun r => r.real)
  else df.extra.lookup name

/-- Model of `aplicar_preco_sugerido` (pricing.py lines 169-184): copy the row-set,
compute the estimator output, create the target column filled with `NaN`
when absent, then overwrite the cells of the target column whose value is
absent or `≤ 0` with the estimator's value.  When the target is one of the
string columns `Loja`/`Equipamento`, `pd.to_numeric(..., errors="coerce")`
yields `NaN` on the (non-numeric) identifiers, so the mask selects nothing
and the row-set is returned unchanged. -/
def aplicar_preco_sugerido (df : DF) (hist : List RegistroHist)
    (destino : String) : DF :=
  let sugest := sugerir_precos df.rows hist
  if destino = "Preço sugerido" then
    let novas := List.zipWith
      (fun r s => { r with sugerido := fillCell r.sugerido s }) df.rows sugest
    { df with rows := novas }
  else if destino = "Preço real" then
    let novas := List.zipWith
      (fun r s => { r with real := fillCell r.real s }) df.rows sugest
    { df with rows := novas }
  else if destino = "Loja" ∨ destino = "Equipamento" then df
  else
    match df.extra.lookup destino with
    | some col =>
      { df with extra := updateExtra destino (List.zipWith fillCell col sugest) df.extra }
    | none => { df with extra := df.extra ++ [(destino, sugest)] }


/-- Witness entry list for the retention claim: 200 010 distinct entries. -/
def listaRetencao : List RegistroHist :=
  (List.range 200010).map fun n => ⟨toString n, "E", some 1, "f", "t"⟩

/-! ## Helper lemmas -/

theorem getD_map_of_lt {α β : Type} (g : α → β) (l : List α) (i : ℕ)
    (h : i < l.length) (d : β) (d' : α) :
    (l.map g).getD i d = g (l.getD i d') := by
  induction l generalizing i with
  | nil => exact absurd h (Nat.not_lt_zero i)
  | cons a t ih =>
    cases i with
    | zero => rfl
    | succ n => exact ih n (Nat.lt_of_succ_lt_succ h)

theorem getD_zipWith_of_lt {α β γ : Type} (f : α → β → γ) (l1 : List α)
    (l2 : List β) (i : ℕ) (h1 : i < l1.length) (h2 : i < l2.length)
    (d : γ) (d1 : α) (d2 : β) :
    (List.zipWith f l1 l2).getD i d = f (l1.getD i d1) (l2.getD i d2) := by
  induction l1 generalizing i l2 with
  | nil => exact absurd h1 (Nat.not_lt_zero i)
  | cons a t ih =>
    cases l2 with
    | nil => exact absurd h2 (Nat.not_lt_zero i)
    | cons b u =>
      cases i with
      | zero => rfl
      | succ n =>
        exact ih u n (Nat.lt_of_succ_lt_succ h1) (Nat.lt_of_succ_lt_succ h2)

theorem carregar_historico_eq (st : StoreState) :
    carregar_historico st
      = match lerArquivo st.parquet with
        | some d => d
        | none =>
          match lerArquivo st.csv with
          | some d => d
          | none => [] := rfl

theorem sugerir_precos_length (rows : List Row) (hist : List RegistroHist) :
    (sugerir_precos rows hist).length = rows.length := by
  simp [sugerir_precos]

theorem linhaCascata_eq_firstUsable (dfT : List Row) (hist : List RegistroHist)
    (r : Row) :
    linhaCascata dfT hist r
      = firstUsable [r.sugerido, medHist hist r.loja r.equipamento,
          medAtualReal dfT r.equipamento, medAtualSug dfT r.equipamento] := by
  simp only [linhaCascata, firstUsable]
  by_cases h1 : usable r.sugerido <;>
    by_cases h2 : usable (medHist hist r.loja r.equipamento) <;>
      by_cases h3 : usable (medAtualReal dfT r.equipamento) <;>
        by_cases h4 : usable (medAtualSug dfT r.equipamento) <;>
          simp [h1, h2, h3, h4]

/-! ## Claim theorems -/

/-- C1: for every validated row-set and historical store, `sugerir_precos`
produces one value per row, and the value of each row is the first tier,
in the order (declared price, historical median for the trimmed
`(Loja, Equipamento)` pair, batch median of realized prices per
equipment, batch median of declared prices per equipment), that yields a
present value strictly greater than 0 — otherwise the unset marker; in
particular a row whose declared suggested price is `> 0` gets exactly
that price. -/
theorem sugerir_precos_cascata (rows : List Row) (hist : List RegistroHist)
    (i : ℕ) (h : i < rows.length) :
    (sugerir_precos rows hist).length = rows.length ∧
    (sugerir_precos rows hist).getD i none
      = firstUsable (tiersAt rows hist (rows.getD i default)) ∧
    ∀ s : ℚ, (rows.getD i default).sugerido = some s → 0 < s →
      (sugerir_precos rows hist).getD i none = some s := by
  have hmain : (sugerir_precos rows hist).getD i none
      = firstUsable (tiersAt rows hist (rows.getD i default)) := by
    have hm : sugerir_precos rows hist
        = rows.map (fun r => linhaCascata (rows.map trimRow) hist (trimRow r)) := by
      simp [sugerir_precos, List.map_map]
    rw [hm, getD_map_of_lt _ rows i h none default,
      linhaCascata_eq_firstUsable]
    simp [tiersAt, trimRow]
  refine ⟨sugerir_precos_length rows hist, hmain, ?_⟩
  intro s hs hpos
  rw [hmain]
  simp only [tiersAt, firstUsable, hs, usable]
  simp [hpos]

/-- Witness for C1: a one-row batch with declared price 5 gets 5. -/
theorem sugerir_precos_cascata_witness :
    (sugerir_precos [⟨"L", "E", some 5, none⟩] []).getD 0 none = some 5 :=
  (sugerir_precos_cascata [⟨"L", "E", some 5, none⟩] [] 0 (by decide)).2.2
    5 rfl (by norm_num)


/-- C2 (counterexample): a historical entry whose store identifier carries
surrounding whitespace (" A ") does NOT match the trimmed batch row ("A"):
the estimator yields no suggestion instead of the entry's realized price
100 — the history-side keys are not trimmed. -/
theorem sugerir_precos_hist_nao_aparado_contra :
    sugerir_precos [⟨"A", "X", none, none⟩] [⟨" A ", "X", some 100, "f", "t"⟩]
      = [none] ∧
    sugerir_precos [⟨"A", "X", none, none⟩] [⟨" A ", "X", some 100, "f", "t"⟩]
      ≠ [some 100] := by
  constructor
  · simp +decide [sugerir_precos, linhaCascata, medHist, medAtualReal,
      medAtualSug, mediana, trimRow, strip, usable]
  · simp +decide [sugerir_precos, linhaCascata, medHist, medAtualReal,
      medAtualSug, mediana, trimRow, strip, usable]

/-- C2 (amended): in the tier-2 lookup only the batch-side identifiers are
trimmed; the history-side identifiers are compared verbatim (and not
case-folded).  A batch row with surrounding whitespace matches a trimmed
historical entry, while a historical entry with surrounding whitespace —
or with different letter case — does not match the trimmed batch row. -/
theorem sugerir_precos_aparo_apenas_lote :
    sugerir_precos [⟨" A ", " X ", none, none⟩] [⟨"A", "X", some 100, "f", "t"⟩]
      = [some 100] ∧
    sugerir_precos [⟨"A", "X", none, none⟩] [⟨" A ", " X ", some 100, "f", "t"⟩]
      = [none] ∧
    sugerir_precos [⟨"a", "X", none, none⟩] [⟨"A", "X", some 100, "f", "t"⟩]
      = [none] := by
  refine ⟨?_, ?_, ?_⟩ <;>
    simp +decide [sugerir_precos, linhaCascata, medHist, medAtualReal,
      medAtualSug, mediana, trimRow, strip, usable]

/-- C3: the medians of tiers 2, 3 and 4 are the standard statistical
median — midpoint average for even counts, middle element for odd counts,
missing values ignored: a tier-2 history group of 10 and 20 gives 15, a
tier-2 group of 10, NaN, 30, 20 gives 20, a tier-3 batch group of
10, 30, 20 gives 20, a tier-4 batch group of 10 and 20 gives 15; and on
bare groups the median of 10, 20 is 15 and of 10, 20, 30 is 20. -/
theorem medianas_padrao :
    sugerir_precos [⟨"L", "E", none, none⟩]
        [⟨"L", "E", some 10, "f", "t"⟩, ⟨"L", "E", some 20, "f", "t"⟩]
      = [some 15] ∧
    sugerir_precos [⟨"L", "E", none, none⟩]
        [⟨"L", "E", some 10, "f", "t"⟩, ⟨"L", "E", none, "f", "t"⟩,
         ⟨"L", "E", some 30, "f", "t"⟩, ⟨"L", "E", some 20, "f", "t"⟩]
      = [some 20] ∧
    sugerir_precos [⟨"A", "E", none, some 10⟩, ⟨"B", "E", none, some 30⟩,
        ⟨"C", "E", none, some 20⟩, ⟨"D", "E", none, none⟩] []
      = [some 20, some 20, some 20, some 20] ∧
    sugerir_precos [⟨"A", "E", some 10, none⟩, ⟨"B", "E", some 20, none⟩,
        ⟨"C", "E", none, none⟩] []
      = [some 10, some 20, some 15] ∧
    mediana [10, 20] = some 15 ∧
    mediana [10, 20, 30] = some 20 := by
  refine ⟨?_, ?_, ?_, ?_, ?_, ?_⟩ <;>
    (simp +decide [sugerir_precos, linhaCascata, medHist, medAtualReal,
       medAtualSug, mediana, trimRow, strip, usable]
     <;> norm_num)

/-- C4: on the suggested-price target column, aplicar_preco_sugerido
returns a row-set of the same length whose extra columns are untouched;
every row whose target value is present and greater than 0 is returned
unchanged, and every other row gets exactly the estimator's value for that
row (possibly unset).  The input row-set itself is never mutated (the
function is a pure map over a copy, pricing.py line 178). -/
theorem aplicar_preco_sugerido_quadro (df : DF) (hist : List RegistroHist)
    (i : ℕ) (h : i < df.rows.length) :
    (aplicar_preco_sugerido df hist "Preço sugerido").extra = df.extra ∧
    (aplicar_preco_sugerido df hist "Preço sugerido").rows.length
      = df.rows.length ∧
    (aplicar_preco_sugerido df hist "Preço sugerido").rows.getD i default
      = (if usable (df.rows.getD i default).sugerido then df.rows.getD i default
         else { df.rows.getD i default with
                  sugerido := (sugerir_precos df.rows hist).getD i none }) := by
  have h2 : i < (sugerir_precos df.rows hist).length := by
    rw [sugerir_precos_length]; exact h
  refine ⟨rfl, ?_, ?_⟩
  · simp [aplicar_preco_sugerido, sugerir_precos_length]
  · have hb : (aplicar_preco_sugerido df hist "Preço sugerido").rows
        = List.zipWith (fun r s => { r with sugerido := fillCell r.sugerido s })
            df.rows (sugerir_precos df.rows hist) := rfl
    rw [hb, getD_zipWith_of_lt _ _ _ i h h2 default default none]
    by_cases hu : usable (df.rows.getD i default).sugerido = true
    · simp only [fillCell, if_pos hu]
    · simp only [fillCell, if_neg hu]

/-- Witness for C4: a one-row batch whose declared price 7 is kept. -/
theorem aplicar_preco_sugerido_quadro_witness :
    (aplicar_preco_sugerido ⟨[⟨"A", "E", some 7, none⟩], []⟩ [] "Preço sugerido").rows.getD 0 default
      = (if usable ((⟨[⟨"A", "E", some 7, none⟩], []⟩ : DF).rows.getD 0 default).sugerido
         then (⟨[⟨"A", "E", some 7, none⟩], []⟩ : DF).rows.getD 0 default
         else { (⟨[⟨"A", "E", some 7, none⟩], []⟩ : DF).rows.getD 0 default with
                  sugerido := (sugerir_precos [⟨"A", "E", some 7, none⟩] []).getD 0 none }) :=
  (aplicar_preco_sugerido_quadro ⟨[⟨"A", "E", some 7, none⟩], []⟩ [] 0
    (by decide)).2.2

/-- C5 (counterexample): the Price Applier is not idempotent.  Batch:
row 1 = ("A", "E") with no prices, row 2 = ("B", "E") with no prices;
history has one entry ("B", "E") with realized price 100.  The first pass
fills row 2 with 100 (tier 2) and leaves row 1 unset (all tiers miss);
the second pass fills row 1 with 100, because row 2's newly filled value
now feeds the tier-4 batch median of declared suggested prices. -/
theorem aplicar_preco_sugerido_nao_idempotente :
    aplicar_preco_sugerido
        (aplicar_preco_sugerido ⟨[⟨"A", "E", none, none⟩, ⟨"B", "E", none, none⟩], []⟩
          [⟨"B", "E", some 100, "f", "t"⟩] "Preço sugerido")
        [⟨"B", "E", some 100, "f", "t"⟩] "Preço sugerido"
      ≠ aplicar_preco_sugerido ⟨[⟨"A", "E", none, none⟩, ⟨"B", "E", none, none⟩], []⟩
          [⟨"B", "E", some 100, "f", "t"⟩] "Preço sugerido" := by
  simp +decide [aplicar_preco_sugerido, sugerir_precos, linhaCascata, medHist,
    medAtualReal, medAtualSug, mediana, trimRow, strip, usable, fillCell]

/-- C5 (amended): a value filled by the first pass is never overwritten by
a second pass — every row whose target value is present and greater than 0
after one application is returned unchanged by a second application (full
idempotence fails only in that rows left unset by the first pass may gain
a value on the second, via the tier-4 median over the freshly filled
column). -/
theorem aplicar_preco_sugerido_segunda_passagem (df : DF)
    (hist : List RegistroHist) (i : ℕ)
    (h : i < (aplicar_preco_sugerido df hist "Preço sugerido").rows.length)
    (hu : usable (((aplicar_preco_sugerido df hist "Preço sugerido").rows.getD i
      default).sugerido) = true) :
    (aplicar_preco_sugerido (aplicar_preco_sugerido df hist "Preço sugerido")
        hist "Preço sugerido").rows.getD i default
      = (aplicar_preco_sugerido df hist "Preço sugerido").rows.getD i default := by
  have h2 : i < (sugerir_precos
      (aplicar_preco_sugerido df hist "Preço sugerido").rows hist).length := by
    rw [sugerir_precos_length]; exact h
  have hb : (aplicar_preco_sugerido (aplicar_preco_sugerido df hist "Preço sugerido")
        hist "Preço sugerido").rows
      = List.zipWith (fun r s => { r with sugerido := fillCell r.sugerido s })
          (aplicar_preco_sugerido df hist "Preço sugerido").rows
          (sugerir_precos (aplicar_preco_sugerido df hist "Preço sugerido").rows hist) := rfl
  rw [hb, getD_zipWith_of_lt _ _ _ i h h2 default default none]
  simp only [fillCell, if_pos hu]

/-- Witness for C5's amended theorem: a row whose declared price 3 is kept
by the first pass is unchanged by the second pass. -/
theorem aplicar_preco_sugerido_segunda_passagem_witness :
    (aplicar_preco_sugerido
        (aplicar_preco_sugerido ⟨[⟨"A", "E", some 3, none⟩], []⟩ [] "Preço sugerido")
        [] "Preço sugerido").rows.getD 0 default
      = (aplicar_preco_sugerido ⟨[⟨"A", "E", some 3, none⟩], []⟩ [] "Preço sugerido").rows.getD 0 default :=
  aplicar_preco_sugerido_segunda_passagem ⟨[⟨"A", "E", some 3, none⟩], []⟩ [] 0
    (by decide) (by decide)

/-- C6: retention invariant of salvar_historico — the entry list it
writes (to whichever file) is the retention trim of its input, which never
exceeds 200 000 entries; and for an input of exactly 200 010 entries the
trim drops precisely the 10 positionally-oldest entries, leaving exactly
200 000. -/
theorem salvar_historico_retencao (df : List RegistroHist) (st : StoreState) :
    (trimRetencao df).length ≤ 200000 ∧
    (st.parquetGravavel = true →
      (salvar_historico df st).parquet = ⟨some (trimRetencao df), true⟩ ∧
      (salvar_historico df st).csv = st.csv) ∧
    (st.parquetGravavel = false →
      (salvar_historico df st).csv = ⟨some (trimRetencao df), true⟩ ∧
      (salvar_historico df st).parquet = st.parquet) ∧
    (df.length = 200010 →
      trimRetencao df = df.drop 10 ∧ (trimRetencao df).length = 200000) := by
  refine ⟨?_, ?_, ?_, ?_⟩
  · by_cases hc : 200000 < df.length
    · simp only [trimRetencao, if_pos hc, List.length_drop]
      omega
    · simp only [trimRetencao, if_neg hc]
      omega
  · intro hg
    simp [salvar_historico, hg]
  · intro hg
    simp [salvar_historico, hg]
  · intro hlen
    have hc : 200000 < df.length := by omega
    constructor
    · simp only [trimRetencao, if_pos hc, hlen]
      norm_num
    · simp only [trimRetencao, if_pos hc, List.length_drop]
      omega

/-- Witness for C6: saving 200 010 entries keeps exactly the last 200 000,
dropping the 10 positionally-oldest. -/
theorem salvar_historico_retencao_witness :
    (salvar_historico listaRetencao ⟨⟨none, false⟩, ⟨none, false⟩, true⟩).parquet
      = ⟨some (trimRetencao listaRetencao), true⟩ ∧
    trimRetencao listaRetencao = listaRetencao.drop 10 ∧
    (trimRetencao listaRetencao).length = 200000 :=
  ⟨((salvar_historico_retencao listaRetencao ⟨⟨none, false⟩, ⟨none, false⟩, true⟩).2.1 rfl).1,
   (salvar_historico_retencao listaRetencao ⟨⟨none, false⟩, ⟨none, false⟩, true⟩).2.2.2
     (by simp [listaRetencao])⟩

/-- C7: round-trip of the store — for at most 200 000 entries, Save
followed by Load reproduces exactly the entries that were saved, both when
the primary (parquet) representation is the one written and read, and when
the parquet codec is unavailable (write raises and the primary file is
unreadable or absent) so that the secondary (csv) representation is the
one written and read. -/
theorem salvar_carregar_roundtrip (df : List RegistroHist) (st : StoreState)
    (hlen : df.length ≤ 200000) :
    (st.parquetGravavel = true →
      carregar_historico (salvar_historico df st) = df) ∧
    (st.parquetGravavel = false → lerArquivo st.parquet = none →
      carregar_historico (salvar_historico df st) = df) := by
  have htrim : trimRetencao df = df := by
    simp only [trimRetencao, if_neg (by omega : ¬ 200000 < df.length)]
  constructor
  · intro hg
    simp [salvar_historico, hg, carregar_historico, lerArquivo, htrim]
  · intro hg hp
    have hb : salvar_historico df st
        = { st with csv := ⟨some (trimRetencao df), true⟩ } := by
      simp [salvar_historico, hg]
    rw [hb, carregar_historico_eq]
    have hpq : ({ st with csv := (⟨some (trimRetencao df), true⟩ : ArquivoHist) }
        : StoreState).parquet = st.parquet := rfl
    rw [hpq, hp]
    simp [lerArquivo, htrim]

/-- Witness for C7: one entry round-trips through the parquet path and
through the csv path. -/
theorem salvar_carregar_roundtrip_witness :
    carregar_historico (salvar_historico [⟨"L", "E", some 1, "f", "t"⟩]
        ⟨⟨none, false⟩, ⟨none, false⟩, true⟩)
      = [⟨"L", "E", some 1, "f", "t"⟩] ∧
    carregar_historico (salvar_historico [⟨"L", "E", some 1, "f", "t"⟩]
        ⟨⟨none, false⟩, ⟨none, false⟩, false⟩)
      = [⟨"L", "E", some 1, "f", "t"⟩] :=
  ⟨(salvar_carregar_roundtrip [⟨"L", "E", some 1, "f", "t"⟩]
      ⟨⟨none, false⟩, ⟨none, false⟩, true⟩ (by norm_num)).1 rfl,
   (salvar_carregar_roundtrip [⟨"L", "E", some 1, "f", "t"⟩]
      ⟨⟨none, false⟩, ⟨none, false⟩, false⟩ (by norm_num)).2 rfl rfl⟩

/-- C8: carregar_historico is total (the embedding returns an entry list
in every state, modelling that all read failures are absorbed): it returns
the parquet contents when the parquet file exists and is readable, falls
back to the csv contents when the parquet read fails, and returns the
empty entry set when neither file is readable. -/
theorem carregar_historico_fallback (st : StoreState) :
    (∀ d, lerArquivo st.parquet = some d → carregar_historico st = d) ∧
    (lerArquivo st.parquet = none →
      (∀ d, lerArquivo st.csv = some d → carregar_historico st = d) ∧
      (lerArquivo st.csv = none → carregar_historico st = [])) := by
  refine ⟨?_, ?_⟩
  · intro d hd
    simp [carregar_historico, hd]
  · intro hp
    refine ⟨?_, ?_⟩
    · intro d hd
      simp [carregar_historico, hp, hd]
    · intro hc
      simp [carregar_historico, hp, hc]

/-- Witness for C8: the three fallback outcomes at concrete states —
readable parquet wins, corrupt parquet falls back to csv, nothing readable
gives the empty set. -/
theorem carregar_historico_fallback_witness :
    carregar_historico ⟨⟨some [⟨"P", "E", some 1, "f", "t"⟩], true⟩,
        ⟨some [⟨"C", "E", some 2, "f", "t"⟩], true⟩, true⟩
      = [⟨"P", "E", some 1, "f", "t"⟩] ∧
    carregar_historico ⟨⟨some [⟨"P", "E", some 1, "f", "t"⟩], false⟩,
        ⟨some [⟨"C", "E", some 2, "f", "t"⟩], true⟩, true⟩
      = [⟨"C", "E", some 2, "f", "t"⟩] ∧
    carregar_historico ⟨⟨some [⟨"P", "E", some 1, "f", "t"⟩], false⟩,
        ⟨none, true⟩, true⟩
      = [] :=
  ⟨(carregar_historico_fallback ⟨⟨some [⟨"P", "E", some 1, "f", "t"⟩], true⟩,
      ⟨some [⟨"C", "E", some 2, "f", "t"⟩], true⟩, true⟩).1
      [⟨"P", "E", some 1, "f", "t"⟩] rfl,
   ((carregar_historico_fallback ⟨⟨some [⟨"P", "E", some 1, "f", "t"⟩], false⟩,
      ⟨some [⟨"C", "E", some 2, "f", "t"⟩], true⟩, true⟩).2 rfl).1
      [⟨"C", "E", some 2, "f", "t"⟩] rfl,
   ((carregar_historico_fallback ⟨⟨some [⟨"P", "E", some 1, "f", "t"⟩], false⟩,
      ⟨none, true⟩, true⟩).2 rfl).2 rfl⟩

/-- C9: atualizar_historico returns the number of rows whose realized
price is present and greater than 0; when no row qualifies (in particular
on an empty batch) it returns 0 and leaves the store untouched; otherwise
the saved entry set is the loaded history followed by exactly the
qualifying rows, projected with source tag "input_atual" and the batch
timestamp. -/
theorem atualizar_historico_contrato (rows : List Row) (st : StoreState)
    (now : String) :
    (atualizar_historico rows st now).1 = (rows.filter qualifica).length ∧
    (rows.filter qualifica = [] → atualizar_historico rows st now = (0, st)) ∧
    (rows.filter qualifica ≠ [] →
      (atualizar_historico rows st now).2
        = salvar_historico
            (carregar_historico st ++ (rows.filter qualifica).map (paraRegistro now))
            st) := by
  by_cases hempty : rows.isEmpty
  · have hnil : rows = [] := List.isEmpty_iff.mp hempty
    subst hnil
    exact ⟨rfl, fun _ => rfl, fun hne => absurd rfl hne⟩
  · by_cases hadd : (rows.filter qualifica).isEmpty
    · have hnil : rows.filter qualifica = [] := List.isEmpty_iff.mp hadd
      refine ⟨?_, fun _ => ?_, fun hne => absurd hnil hne⟩
      · simp [atualizar_historico, hempty, hadd, hnil]
      · simp [atualizar_historico, hempty, hadd]
    · have hne : rows.filter qualifica ≠ [] := by
        intro hc
        exact absurd (List.isEmpty_iff.mpr hc) (by simp [hadd])
    
      refine ⟨?_, fun hc => absurd hc hne, fun _ => ?_⟩
      · simp [atualizar_historico, hempty, hadd]
      · simp [atualizar_historico, hempty, hadd]

/-- Witness for C9: a two-row batch with one qualifying row (realized
price 5; the other row's realized price is unset) appends exactly that
one projected entry after the loaded history. -/
theorem atualizar_historico_contrato_witness :
    (atualizar_historico [⟨"A", "E", none, some 5⟩, ⟨"B", "E", none, none⟩]
        ⟨⟨none, false⟩, ⟨none, false⟩, true⟩ "t").1
      = ([⟨"A", "E", none, some 5⟩, ⟨"B", "E", none, none⟩].filter qualifica).length ∧
    (atualizar_historico [⟨"A", "E", none, some 5⟩, ⟨"B", "E", none, none⟩]
        ⟨⟨none, false⟩, ⟨none, false⟩, true⟩ "t").2
      = salvar_historico
          (carregar_historico ⟨⟨none, false⟩, ⟨none, false⟩, true⟩
            ++ ([⟨"A", "E", none, some 5⟩, ⟨"B", "E", none, none⟩].filter
                  qualifica).map (paraRegistro "t"))
          ⟨⟨none, false⟩, ⟨none, false⟩, true⟩ :=
  ⟨(atualizar_historico_contrato
      [⟨"A", "E", none, some 5⟩, ⟨"B", "E", none, none⟩]
      ⟨⟨none, false⟩, ⟨none, false⟩, true⟩ "t").1,
   (atualizar_historico_contrato
      [⟨"A", "E", none, some 5⟩, ⟨"B", "E", none, none⟩]
      ⟨⟨none, false⟩, ⟨none, false⟩, true⟩ "t").2.2 (by decide)⟩

theorem lookup_append_of_none {β : Type} (k : String)
    (l1 l2 : List (String × β)) (h : l1.lookup k = none) :
    (l1 ++ l2).lookup k = l2.lookup k := by
  induction l1 with
  | nil => rfl
  | cons p t ih =>
    rcases p with ⟨n, c⟩
    by_cases hk : k == n
    · simp [List.lookup, hk] at h
    · simp only [List.cons_append, List.lookup, hk] at h ⊢
      exact ih h

theorem lookup_self_singleton {β : Type} (k : String) (v : β) :
    ([(k, v)] : List (String × β)).lookup k = some v := by
  simp [List.lookup]

theorem lookup_updateExtra_self (k : String) (v : List (Option ℚ))
    (l : List (String × List (Option ℚ))) (c : List (Option ℚ))
    (h : l.lookup k = some c) :
    (updateExtra k v l).lookup k = some v := by
  induction l with
  | nil => simp [List.lookup] at h
  | cons p t ih =>
    rcases p with ⟨n, cv⟩
    by_cases hk : k == n
    · have hkn : k = n := eq_of_beq hk
      subst hkn
      simp [updateExtra, List.lookup]
    · have hnk : ¬ n = k := by
        intro hc
        subst hc
        simp at hk
      simp only [List.lookup, hk] at h
      simp only [updateExtra, if_neg hnk, List.lookup, hk]
      exact ih h

/-- C10: when the target column named by coluna_destino is not a column
of the input row-set, aplicar_preco_sugerido creates it and every one of
its cells receives the estimator's value for that row (every cell of a
fresh NaN column counts as unset); and for every target name whatever,
the returned row-set contains the target column. -/
theorem aplicar_preco_sugerido_cria_coluna (df : DF) (hist : List RegistroHist)
    (destino : String)
    (h1 : destino ≠ "Preço sugerido") (h2 : destino ≠ "Preço real")
    (h3 : destino ≠ "Loja") (h4 : destino ≠ "Equipamento")
    (h5 : df.extra.lookup destino = none) :
    getNum (aplicar_preco_sugerido df hist destino) destino
      = some (sugerir_precos df.rows hist) ∧
    ∀ d : String, temColuna (aplicar_preco_sugerido df hist d) d = true := by
  constructor
  · have hb : aplicar_preco_sugerido df hist destino
        = { df with extra := df.extra ++ [(destino, sugerir_precos df.rows hist)] } := by
      simp only [aplicar_preco_sugerido, if_neg h1, if_neg h2,
        if_neg (not_or.mpr ⟨h3, h4⟩), h5]
    rw [hb]
    simp only [getNum, if_neg h1, if_neg h2]
    rw [lookup_append_of_none destino df.extra _ h5, lookup_self_singleton]
  · intro d
    by_cases hd1 : d = "Preço sugerido"
    · simp [temColuna, hd1]
    · by_cases hd2 : d = "Preço real"
      · simp [temColuna, hd2]
      · by_cases hd3 : d = "Loja" ∨ d = "Equipamento"
        · rcases hd3 with hd3 | hd3 <;> simp [temColuna, hd3]
        · rcases hlook : df.extra.lookup d with _ | col
          · have hb : aplicar_preco_sugerido df hist d
                = { df with extra := df.extra ++ [(d, sugerir_precos df.rows hist)] } := by
              simp only [aplicar_preco_sugerido, if_neg hd1, if_neg hd2,
                if_neg hd3, hlook]
            rw [hb]
            simp only [temColuna]
            rw [lookup_append_of_none d df.extra _ hlook, lookup_self_singleton]
            simp
          · have hb : aplicar_preco_sugerido df hist d
                = { df with extra := (updateExtra d (List.zipWith fillCell col (sugerir_precos df.rows hist)) df.extra) } := by
              simp only [aplicar_preco_sugerido, if_neg hd1, if_neg hd2,
                if_neg hd3, hlook]
            rw [hb]
            simp only [temColuna]
            rw [lookup_updateExtra_self d
              (List.zipWith fillCell col (sugerir_precos df.rows hist))
              df.extra col hlook]
            simp

/-- Witness for C10: applying with the absent target name "X" adds the
column "X" holding exactly the estimator output, and the result has the
column. -/
theorem aplicar_preco_sugerido_cria_coluna_witness :
    getNum (aplicar_preco_sugerido ⟨[⟨"A", "E", some 2, none⟩], []⟩ [] "X") "X"
      = some (sugerir_precos [⟨"A", "E", some 2, none⟩] []) ∧
    temColuna (aplicar_preco_sugerido ⟨[⟨"A", "E", some 2, none⟩], []⟩ [] "X") "X"
      = true :=
  ⟨(aplicar_preco_sugerido_cria_coluna ⟨[⟨"A", "E", some 2, none⟩], []⟩ [] "X"
      (by decide) (by decide) (by decide) (by decide) rfl).1,
   (aplicar_preco_sugerido_cria_coluna ⟨[⟨"A", "E", some 2, none⟩], []⟩ [] "X"
      (by decide) (by decide) (by decide) (by decide) rfl).2 "X"⟩

end Pricing
